import Mathlib

/-!
Verification development for the claude-reporter transcript-to-HTML engine.

The repository ships the test suite of its core pipeline (parser, sidechain
merger, duplicate collapser, cache manager, renderer, orchestrator) together
with the peripheral `team_analytics` module.  The core pipeline modules
themselves are not part of the source tree, so the pipeline components below
are modelled from the specification (each such definition says so in its doc
comment); the `team_analytics` definitions are translated directly from
`src/claude_code_log/team_analytics.py`.
-/

namespace ClaudeReporter

/-! ## Entry model (spec §3)

Modelled from the spec: the Entry Model component is not under `src/`; the
tagged unions below follow spec §3 ("Entry" and "ContentItem") and the shapes
exercised by `src/test/test_version_deduplication.py` and
`src/test/test_sidechain_agents.py`. -/

/-- One content item inside a message (spec §3 `ContentItem`). -/
inductive ContentItem where
  | text (t : String)
  | toolUse (id : String) (name : String) (input : String)
  | toolResult (tool_use_id : String) (content : String) (is_error : Bool)
  | thinking (t : String)
  | image (source : String)
deriving DecidableEq, Repr

/-- The entry kinds of spec §3. -/
inductive EntryType where
  | user
  | assistant
  | summary
  | queueOperation
deriving DecidableEq, Repr

/-- One parsed transcript line (spec §3 `Entry`).  `messageId` is the
`message.id` field carried by assistant messages; `toolUseResultAgentId` is
the `agentId` named by the raw tool-result metadata (`toolUseResult` in the
JSONL input). -/
structure Entry where
  type : EntryType
  uuid : String
  parentUuid : Option String := none
  sessionId : String := ""
  timestamp : String := ""
  isSidechain : Bool := false
  agentId : Option String := none
  messageId : Option String := none
  content : List ContentItem := []
  toolUseResultAgentId : Option String := none
deriving DecidableEq, Repr

/-! ## Duplicate Collapser (spec §4.3, `renderer.deduplicate_messages`)

Modelled from the spec: `claude_code_log/renderer.py` is not under `src/`;
`deduplicate_messages` follows spec §4.3 — an identity key per entry
(`message.id` for Assistant entries, `tool_use_id` for ToolResult content
items), a single pass keeping only the first occurrence of each key. -/

/-- The `tool_use_id` of the first tool-result content item, if any. -/
def firstToolResultId : List ContentItem → Option String
  | [] => none
  | ContentItem.toolResult id _ _ :: _ => some id
  | _ :: cs => firstToolResultId cs

/-- Modelled from the spec: identity key of an entry — `message.id` for
Assistant entries, the tool-result `tool_use_id` otherwise; entries with
neither (plain text-only turns) have no key and are never deduplicated. -/
def identityKey (e : Entry) : Option String :=
  match e.type with
  | EntryType.assistant => e.messageId
  | _ => firstToolResultId e.content

/-- Single pass of the duplicate collapser, carrying the set of identity
keys already seen. -/
def dedupGo (seen : List String) : List Entry → List Entry
  | [] => []
  | e :: rest =>
    match identityKey e with
    | none => e :: dedupGo seen rest
    | some k =>
      if k ∈ seen then dedupGo seen rest
      else e :: dedupGo (k :: seen) rest

/-- Modelled from the spec: `deduplicate_messages` (spec §4.3) keeps only the
first occurrence of each identity key over the time-ordered merged
sequence. -/
def deduplicate_messages (l : List Entry) : List Entry := dedupGo [] l

/-- Tests whether an entry's identity key is the given key. -/
def hasKey (k : String) (e : Entry) : Bool := identityKey e == some k

theorem hasKey_eq (k : String) (e : Entry) :
    hasKey k e = true ↔ identityKey e = some k := by
  simp [hasKey]

theorem dedupGo_sublist (seen : List String) (l : List Entry) :
    (dedupGo seen l).Sublist l := by
  induction l generalizing seen with
  | nil => simp [dedupGo]
  | cons e rest ih =>
    simp only [dedupGo]
    cases h : identityKey e with
    | none => exact (ih seen).cons₂ e
    | some k =>
      by_cases hk : k ∈ seen
      · simp only [if_pos hk]
        exact (ih seen).cons e
      · simp only [if_neg hk]
        exact (ih (k :: seen)).cons₂ e

theorem dedupGo_filter (k : String) (l : List Entry) (seen : List String) :
    (dedupGo seen l).filter (hasKey k)
      = if k ∈ seen then [] else (l.filter (hasKey k)).take 1 := by
  induction l generalizing seen with
  | nil => simp [dedupGo]
  | cons e rest ih =>
    simp only [dedupGo]
    cases h : identityKey e with
    | none =>
      have he : hasKey k e = false := by simp [hasKey, h]
      by_cases hk : k ∈ seen
      · simp [List.filter_cons, he, ih, hk]
      · simp [List.filter_cons, he, ih, hk]
    | some k' =>
      by_cases hk' : k' ∈ seen
      · simp only [if_pos hk']
        by_cases hkk : k' = k
        · subst hkk
          have he : hasKey k' e = true := by simp [hasKey, h]
          simp [List.filter_cons, he, ih, hk']
        · have he : hasKey k e = false := by
            simp [hasKey, h]
            exact hkk
          by_cases hk : k ∈ seen
          · simp [List.filter_cons, he, ih, hk]
          · simp [List.filter_cons, he, ih, hk]
      · simp only [if_neg hk']
        by_cases hkk : k' = k
        · subst hkk
          have he : hasKey k' e = true := by simp [hasKey, h]
          have : k' ∈ k' :: seen := List.mem_cons_self k' seen
          simp [List.filter_cons, he, ih, this, hk']
        · have he : hasKey k e = false := by
            simp [hasKey, h]
            exact hkk
          have hmem : (k ∈ k' :: seen) ↔ (k ∈ seen) := by
            simp [List.mem_cons]
            exact fun hc => absurd hc.symm hkk
          by_cases hk : k ∈ seen
          · simp [List.filter_cons, he, ih, hmem, hk]
          · simp [List.filter_cons, he, ih, hmem, hk]

/-- A version-upgrade stutter pair: first of two assistant entries sharing
`message.id` `msg_duplicate` but distinct `uuid`/`parentUuid`
(after `test_assistant_message_deduplication`). -/
def stutterV1 : Entry :=
  { type := EntryType.assistant
    uuid := "uuid-v1"
    parentUuid := some "parent-001"
    sessionId := "session-test"
    messageId := some "msg_duplicate"
    content := [ContentItem.toolUse "toolu_edit" "Edit" "/test/file.py"] }

/-- Second element of the stutter pair: same `message.id` and content,
different `uuid`/`parentUuid`. -/
def stutterV2 : Entry :=
  { stutterV1 with uuid := "uuid-v2", parentUuid := some "parent-002" }

/-- **C1**: the Duplicate Collapser keys Assistant entries by `message.id`
and ToolResult content items by `tool_use_id`, keeps exactly the first
occurrence of each identity key in sequence order and drops every later
entry sharing that key (output filtered to a key is the first occurrence of
that key in the input, and the output is a subsequence of the input); and
for two duplicates sharing a key with identical content, exactly one
survivor remains with the same content whichever duplicate comes first. -/
theorem C1_duplicate_collapser_first_occurrence (l : List Entry) (k : String)
    (d1 d2 : Entry)
    (h1 : identityKey d1 = some k) (h2 : identityKey d2 = some k)
    (hc : d1.content = d2.content) :
    (deduplicate_messages l).Sublist l
    ∧ (deduplicate_messages l).filter (hasKey k) = (l.filter (hasKey k)).take 1
    ∧ (∀ e : Entry, e.type = EntryType.assistant → identityKey e = e.messageId)
    ∧ (∀ e : Entry, e.type = EntryType.user →
        identityKey e = firstToolResultId e.content)
    ∧ (deduplicate_messages [d1, d2]).map Entry.content = [d1.content]
    ∧ (deduplicate_messages [d2, d1]).map Entry.content = [d1.content] := by
  refine ⟨dedupGo_sublist [] l, ?_, ?_, ?_, ?_, ?_⟩
  · simpa using dedupGo_filter k l []
  · intro e he
    simp [identityKey, he]
  · intro e he
    simp [identityKey, he]
  · simp [deduplicate_messages, dedupGo, h1, h2]
  · simp [deduplicate_messages, dedupGo, h1, h2, hc]

/-- Witness for C1 at the concrete stutter pair of
`test_assistant_message_deduplication`. -/
theorem C1_duplicate_collapser_first_occurrence_witness :
    (deduplicate_messages [stutterV1, stutterV2]).map Entry.content
        = [stutterV1.content]
    ∧ (deduplicate_messages [stutterV2, stutterV1]).map Entry.content
        = [stutterV1.content] := by
  have h := C1_duplicate_collapser_first_occurrence
    [stutterV1, stutterV2] "msg_duplicate" stutterV1 stutterV2 rfl rfl rfl
  exact ⟨h.2.2.2.2.1, h.2.2.2.2.2⟩

/-! ## Sidechain Merger (spec §4.2)

Modelled from the spec: the merger module is not under `src/`; the splice
follows spec §4.2 — scan the primary sequence; whenever a User-type entry
carries tool-result content whose metadata names an `agent_id` present in
the lookup, splice that agent's full entry sequence immediately after that
entry, marking every spliced entry `is_sidechain = true`. -/

/-- Does the entry carry any tool-result content item? -/
def hasToolResult (e : Entry) : Bool :=
  e.content.any fun c => match c with
    | ContentItem.toolResult _ _ _ => true
    | _ => false

/-- Modelled from the spec: the `agent_id` named by a User-type entry's
tool-result metadata, when the entry carries tool-result content. -/
def refAgent (e : Entry) : Option String :=
  if e.type == EntryType.user && hasToolResult e then e.toolUseResultAgentId
  else none

/-- Mark an entry as sidechain-origin (`is_sidechain = true`). -/
def markSidechain (e : Entry) : Entry := { e with isSidechain := true }

/-- Modelled from the spec: the Sidechain Merger (spec §4.2) over a primary
sequence, keyed strictly by `agent_id` through the agent lookup. -/
def merge_sidechains (lookup : List (String × List Entry)) :
    List Entry → List Entry
  | [] => []
  | e :: rest =>
    match refAgent e with
    | some aid =>
      match lookup.lookup aid with
      | some ag => e :: (ag.map markSidechain ++ merge_sidechains lookup rest)
      | none => e :: merge_sidechains lookup rest
    | none => e :: merge_sidechains lookup rest

theorem merge_sidechains_append (lookup : List (String × List Entry))
    (xs ys : List Entry) :
    merge_sidechains lookup (xs ++ ys)
      = merge_sidechains lookup xs ++ merge_sidechains lookup ys := by
  induction xs with
  | nil => simp [merge_sidechains]
  | cons e rest ih =>
    simp only [List.cons_append, merge_sidechains]
    cases h : refAgent e with
    | none => simp [ih]
    | some aid =>
      cases hl : lookup.lookup aid with
      | none => simp [hl, ih]
      | some ag => simp [hl, ih]

theorem merge_sidechains_cons_ref (lookup : List (String × List Entry))
    (l : List Entry) (e : Entry) (aid : String) (ag : List Entry)
    (he : refAgent e = some aid) (hl : lookup.lookup aid = some ag) :
    merge_sidechains lookup (e :: l)
      = e :: (ag.map markSidechain ++ merge_sidechains lookup l) := by
  simp [merge_sidechains, he, hl]

/-- **C2**: the Sidechain Merger splices each referenced agent's full entry
sequence immediately after the User entry whose tool-result metadata names
that `agent_id` (before the next primary-sequence entry), marks every
spliced entry `is_sidechain = true`, and keys insertion strictly by
`agent_id`, so two distinct agent invocations are each spliced at their own
insertion point. -/
theorem C2_sidechain_merger_splice (lookup : List (String × List Entry))
    (xs ys : List Entry) (e : Entry) (aid : String) (ag : List Entry)
    (he : refAgent e = some aid) (hl : lookup.lookup aid = some ag) :
    merge_sidechains lookup (xs ++ e :: ys)
      = merge_sidechains lookup xs
          ++ e :: (ag.map markSidechain ++ merge_sidechains lookup ys)
    ∧ (∀ a ∈ ag.map markSidechain, a.isSidechain = true)
    ∧ (∀ (zs : List Entry) (e2 : Entry) (aid2 : String) (ag2 : List Entry),
        refAgent e2 = some aid2 → lookup.lookup aid2 = some ag2 →
        merge_sidechains lookup (xs ++ e :: (ys ++ e2 :: zs))
          = merge_sidechains lookup xs
              ++ e :: (ag.map markSidechain
              ++ (merge_sidechains lookup ys
              ++ e2 :: (ag2.map markSidechain
              ++ merge_sidechains lookup zs)))) := by
  refine ⟨?_, ?_, ?_⟩
  · rw [merge_sidechains_append, merge_sidechains_cons_ref lookup ys e aid ag he hl]
  · intro a ha
    rcases List.mem_map.mp ha with ⟨b, _, rfl⟩
    rfl
  · intro zs e2 aid2 ag2 he2 hl2
    rw [merge_sidechains_append,
      merge_sidechains_cons_ref lookup (ys ++ e2 :: zs) e aid ag he hl,
      merge_sidechains_append,
      merge_sidechains_cons_ref lookup zs e2 aid2 ag2 he2 hl2]

/-- First Task tool-result entry of `test_multiple_agent_invocations`. -/
def taskResultFirst : Entry :=
  { type := EntryType.user
    uuid := "d-2"
    parentUuid := some "d-1"
    sessionId := "test-4"
    content := [ContentItem.toolResult "task-4a" "First done" false]
    toolUseResultAgentId := some "first"
    agentId := some "first" }

/-- Second Task tool-result entry of `test_multiple_agent_invocations`. -/
def taskResultSecond : Entry :=
  { type := EntryType.user
    uuid := "d-4"
    parentUuid := some "d-3"
    sessionId := "test-4"
    content := [ContentItem.toolResult "task-4b" "Second done" false]
    toolUseResultAgentId := some "second"
    agentId := some "second" }

/-- Transcript of agent `first` from `test_multiple_agent_invocations`. -/
def agentFirstEntries : List Entry :=
  [ { type := EntryType.user, uuid := "agent-d-0", sessionId := "test-4"
      agentId := some "first", content := [ContentItem.text "First task"] }
  , { type := EntryType.assistant, uuid := "agent-d-1", sessionId := "test-4"
      agentId := some "first", messageId := some "msg_agent_01"
      content := [ContentItem.text "First done"] } ]

/-- Transcript of agent `second` from `test_multiple_agent_invocations`. -/
def agentSecondEntries : List Entry :=
  [ { type := EntryType.user, uuid := "agent2-d-0", sessionId := "test-4"
      agentId := some "second", content := [ContentItem.text "Second task"] }
  , { type := EntryType.assistant, uuid := "agent2-d-1", sessionId := "test-4"
      agentId := some "second", messageId := some "msg_agent_02"
      content := [ContentItem.text "Second done"] } ]

/-- Agent lookup of `test_multiple_agent_invocations`. -/
def demoLookup : List (String × List Entry) :=
  [("first", agentFirstEntries), ("second", agentSecondEntries)]

/-- Witness for C2: both agents of `test_multiple_agent_invocations` are
spliced at their own insertion points. -/
theorem C2_sidechain_merger_splice_witness :
    merge_sidechains demoLookup [taskResultFirst, taskResultSecond]
      = taskResultFirst :: (agentFirstEntries.map markSidechain
          ++ taskResultSecond :: agentSecondEntries.map markSidechain)
    ∧ ∀ a ∈ agentFirstEntries.map markSidechain, a.isSidechain = true := by
  have h := C2_sidechain_merger_splice demoLookup [] []
    taskResultFirst "first" agentFirstEntries rfl rfl
  refine ⟨?_, h.2.1⟩
  have h3 := h.2.2 [] taskResultSecond "second" agentSecondEntries rfl rfl
  simpa [merge_sidechains] using h3

/-! ## Renderer content filtering (spec §4.2 edge-case policy)

Modelled from the spec: the renderer module is not under `src/`; filtering is
by content-item kind, not by entry-level sidechain flag — sidechain bare
conversational prompts are excluded, tool-result content inside a sidechain
User entry is rendered. -/

/-- Modelled from the spec: whether a content item of an entry reaches the
HTML output — tool-result items always; other items unless the entry is a
sidechain User prompt (internal prompt scaffolding). -/
def shouldRenderItem (e : Entry) (c : ContentItem) : Bool :=
  match c with
  | ContentItem.toolResult _ _ _ => true
  | _ => !(e.isSidechain && e.type == EntryType.user)

/-- Modelled from the spec: the content items of a merged sequence that reach
the HTML output, paired with their entries. -/
def renderedItems (entries : List Entry) : List (Entry × ContentItem) :=
  entries.flatMap fun e =>
    (e.content.filter (shouldRenderItem e)).map fun c => (e, c)

/-- **C7**: sidechain bare conversational prompts are excluded from the HTML
output while tool-result content items arriving inside a sidechain User
entry are rendered; the exclusion decision is made per content-item kind —
tool-result items are rendered for every entry regardless of the
`is_sidechain` flag, and a text item is dropped exactly when its entry is a
sidechain User entry. -/
theorem C7_sidechain_item_filter (entries : List Entry)
    (x : Entry × ContentItem) (e : Entry) (t id cnt : String) (err : Bool) :
    (x ∈ renderedItems entries ↔
      x.1 ∈ entries ∧ x.2 ∈ x.1.content ∧ shouldRenderItem x.1 x.2 = true)
    ∧ shouldRenderItem e (ContentItem.toolResult id cnt err) = true
    ∧ shouldRenderItem e (ContentItem.text t)
        = !(e.isSidechain && e.type == EntryType.user) := by
  refine ⟨⟨?_, ?_⟩, rfl, rfl⟩
  · intro hx
    rcases List.mem_flatMap.mp hx with ⟨a, ha, hx2⟩
    rcases List.mem_map.mp hx2 with ⟨c, hc, rfl⟩
    rcases List.mem_filter.mp hc with ⟨hcmem, hcrender⟩
    exact ⟨ha, hcmem, hcrender⟩
  · rintro ⟨h1, h2, h3⟩
    exact List.mem_flatMap.mpr
      ⟨x.1, h1, List.mem_map.mpr ⟨x.2, List.mem_filter.mpr ⟨h2, h3⟩, rfl⟩⟩

/-! ## Content-level Task-result dedup (spec §4.3, second half)

Modelled from the spec: when a Task-type tool's result content is
byte-identical to a spliced sidechain agent's final assistant message, the
sidechain's trailing message is replaced with a short forward-reference. -/

/-- Modelled from the spec: the forward-reference text replacing a
deduplicated sidechain trailing message (the rendered HTML contains
"(Task summary ... already displayed in ... Task tool result above",
`test_deduplication_task_result_vs_sidechain`). -/
def forwardRefText : String :=
  "(Task summary already displayed in Task tool result above)"

/-- The text of an entry when it is an assistant turn whose content is a
single text block (the shape of a sidechain's final assistant message). -/
def finalAssistantText (e : Entry) : Option String :=
  match e.type, e.content with
  | EntryType.assistant, [ContentItem.text t] => some t
  | _, _ => none

/-- Modelled from the spec: content-level dedup of a spliced sidechain
against the Task tool result — only the single trailing message is ever
replaced, and only when its text is byte-identical to the Task result
content. -/
def dedupe_task_result (taskContent : String) (ag : List Entry) :
    List Entry :=
  match ag.getLast? with
  | none => ag
  | some last =>
    if finalAssistantText last == some taskContent then
      ag.dropLast ++ [{ last with content := [ContentItem.text forwardRefText] }]
    else ag

/-- Does the entry carry a text or tool-result content item equal to `s`? -/
def hasContentString (e : Entry) (s : String) : Bool :=
  e.content.any fun c => match c with
    | ContentItem.text u => u == s
    | ContentItem.toolResult _ u _ => u == s
    | _ => false

/-- Number of entries of a sequence carrying the string `s` as text or
tool-result content. -/
def contentOccurrences (l : List Entry) (s : String) : Nat :=
  (l.filter (hasContentString · s)).length

/-- **C8**: when the spliced sidechain's final assistant message is
byte-identical to the referencing Task tool's result content, rendering
replaces that single trailing sidechain message with a short
forward-reference (only the last element changes), so the shared content
appears exactly once across the Task result and the sidechain; when the two
contents differ, no replacement occurs. -/
theorem C8_task_result_content_dedup (t : String) (init : List Entry)
    (last r : Entry)
    (hlast : finalAssistantText last = some t)
    (ht : t ≠ forwardRefText)
    (hr : hasContentString r t = true)
    (hinit : ∀ e ∈ init, hasContentString e t = false) :
    dedupe_task_result t (init ++ [last])
      = init ++ [{ last with content := [ContentItem.text forwardRefText] }]
    ∧ contentOccurrences (r :: dedupe_task_result t (init ++ [last])) t = 1
    ∧ (∀ (ag : List Entry) (l' : Entry), ag.getLast? = some l' →
        finalAssistantText l' ≠ some t → dedupe_task_result t ag = ag) := by
  have hrepl : dedupe_task_result t (init ++ [last])
      = init ++ [{ last with content := [ContentItem.text forwardRefText] }] := by
    simp [dedupe_task_result, List.getLast?_concat, List.dropLast_concat, hlast]
  have hforward :
      hasContentString
        { last with content := [ContentItem.text forwardRefText] } t = false := by
    simp [hasContentString]
    exact fun h => ht h.symm
  refine ⟨hrepl, ?_, ?_⟩
  · rw [hrepl]
    have hfil : init.filter (hasContentString · t) = [] :=
      List.filter_eq_nil_iff.mpr (by simpa using hinit)
    simp [contentOccurrences, List.filter_cons, List.filter_append, hr,
      hfil, hforward]
  · intro ag l' hg hne
    simp [dedupe_task_result, hg, hne]

/-- The Task tool-result entry of
`test_deduplication_task_result_vs_sidechain`. -/
def c8TaskEntry : Entry :=
  { type := EntryType.user
    uuid := "m-2"
    content := [ContentItem.toolResult "task-1"
      "I created the test file successfully" false]
    toolUseResultAgentId := some "e1c84ba5" }

/-- The sidechain agent's prompt entry for the C8 witness. -/
def c8AgentPrompt : Entry :=
  { type := EntryType.user
    uuid := "agent-0"
    isSidechain := true
    content := [ContentItem.text "Create the test file"] }

/-- The sidechain agent's final assistant entry, byte-identical to the Task
result content. -/
def c8AgentFinal : Entry :=
  { type := EntryType.assistant
    uuid := "agent-1"
    isSidechain := true
    messageId := some "msg_agent_final"
    content := [ContentItem.text "I created the test file successfully"] }

/-- Witness for C8 at the concrete scenario of
`test_deduplication_task_result_vs_sidechain`. -/
theorem C8_task_result_content_dedup_witness :
    dedupe_task_result "I created the test file successfully"
        [c8AgentPrompt, c8AgentFinal]
      = [c8AgentPrompt,
         { c8AgentFinal with content := [ContentItem.text forwardRefText] }]
    ∧ contentOccurrences
        (c8TaskEntry :: dedupe_task_result
          "I created the test file successfully" [c8AgentPrompt, c8AgentFinal])
        "I created the test file successfully" = 1 := by
  have h := C8_task_result_content_dedup "I created the test file successfully"
    [c8AgentPrompt] c8AgentFinal c8TaskEntry rfl (by decide) (by decide)
    (by decide)
  exact ⟨h.1, h.2.1⟩

/-! ## Parser (spec §4.1)

Modelled from the spec: the parser module is not under `src/`; decoding is
line-independent — each line runs through a line decoder on its own, a
malformed or empty line produces no Entry and increments a skip counter but
never raises a fatal error for the file. -/

/-- Modelled from the spec: parse a transcript file, given the per-line
decoder (JSON decoding of a single line, `none` on malformed or empty
lines).  Returns the entries in physical line order and the count of
skipped lines; the file-level parse is total — no line ever aborts it. -/
def parse_transcript (decode : String → Option Entry) (lines : List String) :
    List Entry × Nat :=
  (lines.filterMap decode,
   (lines.filter fun l => (decode l).isNone).length)

theorem filterMap_length_of_isSome {α β : Type} (f : α → Option β)
    (l : List α) (h : ∀ x ∈ l, (f x).isSome) :
    (l.filterMap f).length = l.length := by
  induction l with
  | nil => simp
  | cons x rest ih =>
    have hx := h x (List.mem_cons_self x rest)
    rcases Option.isSome_iff_exists.mp hx with ⟨b, hb⟩
    simp [List.filterMap_cons, hb,
      ih fun y hy => h y (List.mem_cons_of_mem x hy)]

/-- **C6**: the Parser decodes each line independently — a malformed line
produces no Entry and does not abort the file, so a file containing one
syntactically invalid line among N valid lines yields exactly N parsed
entries, a skip count of one, and the conversion completes non-fatally
(the parse of the whole file is the concatenation of the parses around the
bad line). -/
theorem C6_parser_skips_malformed_lines (decode : String → Option Entry)
    (xs ys : List String) (bad : String)
    (hbad : decode bad = none)
    (hval : ∀ l ∈ xs ++ ys, (decode l).isSome) :
    (parse_transcript decode (xs ++ bad :: ys)).1
      = (parse_transcript decode xs).1 ++ (parse_transcript decode ys).1
    ∧ (parse_transcript decode (xs ++ bad :: ys)).1.length
        = xs.length + ys.length
    ∧ (parse_transcript decode (xs ++ bad :: ys)).2 = 1 := by
  have hxs : ∀ l ∈ xs, (decode l).isSome := fun l hl =>
    hval l (List.mem_append_left ys hl)
  have hys : ∀ l ∈ ys, (decode l).isSome := fun l hl =>
    hval l (List.mem_append_right xs hl)
  refine ⟨?_, ?_, ?_⟩
  · simp [parse_transcript, List.filterMap_append, List.filterMap_cons, hbad]
  · simp [parse_transcript, List.filterMap_append, List.filterMap_cons, hbad,
      filterMap_length_of_isSome decode xs hxs,
      filterMap_length_of_isSome decode ys hys]
  · have hfx : xs.filter (fun l => (decode l).isNone) = [] :=
      List.filter_eq_nil_iff.mpr fun l hl => by
        simp [Option.isNone_iff_eq_none]
        exact Option.isSome_iff_ne_none.mp (hxs l hl)
    have hfy : ys.filter (fun l => (decode l).isNone) = [] :=
      List.filter_eq_nil_iff.mpr fun l hl => by
        simp [Option.isNone_iff_eq_none]
        exact Option.isSome_iff_ne_none.mp (hys l hl)
    simp [parse_transcript, List.filter_append, List.filter_cons, hbad,
      hfx, hfy]

/-- A sample line decoder for the C6 witness: decodes the two well-formed
lines of the scenario and rejects everything else (empty or malformed). -/
def demoDecode (line : String) : Option Entry :=
  if line = "type:user" then
    some { type := EntryType.user, uuid := "u-0" }
  else if line = "type:assistant" then
    some { type := EntryType.assistant, uuid := "a-0" }
  else none

/-- Witness for C6: one invalid line among two valid lines yields exactly
two entries and one skip. -/
theorem C6_parser_skips_malformed_lines_witness :
    (parse_transcript demoDecode
        ["type:user", "invalid json here", "type:assistant"]).1.length
      = 2
    ∧ (parse_transcript demoDecode
        ["type:user", "invalid json here", "type:assistant"]).2
      = 1 := by
  have h := C6_parser_skips_malformed_lines demoDecode
    ["type:user"] ["type:assistant"] "invalid json here"
    (by decide) (by decide)
  exact ⟨h.2.1, h.2.2⟩

/-! ## Code-block preview truncation (spec §4.5, renderer item (4))

Modelled from the spec: `_truncate_highlighted_preview` of the renderer is
not under `src/`; per spec §4.5 the collapsed preview shows only the first N
physical lines, with the code pane and the line-number gutter truncated
together, and the expanded pane shows the full content. -/

/-- A syntax-highlighted code block: the line-number gutter and the code
pane as physical lines (the two `<td>`s of the Pygments table). -/
structure HighlightedBlock where
  gutter : List String
  code : List String
deriving DecidableEq, Repr

/-- Modelled from the spec: truncate the collapsed preview — both the code
pane and the line-number gutter cut together at the same physical line. -/
def truncate_highlighted_preview (b : HighlightedBlock) (n : Nat) :
    HighlightedBlock :=
  { gutter := b.gutter.take n, code := b.code.take n }

/-- Number of physical lines shown by a collapsed preview (the tests expect
the first 5 lines). -/
def previewLineCount : Nat := 5

/-- Line-count threshold beyond which a code block becomes collapsible (the
tests expect blocks of more than 12 lines to collapse). -/
def codeCollapseThreshold : Nat := 12

/-- A collapsible code block: the collapsed preview and the full expanded
pane. -/
structure CollapsibleBlock where
  preview : HighlightedBlock
  full : HighlightedBlock
deriving DecidableEq, Repr

/-- Modelled from the spec: a block long enough to be collapsible is
rendered as the truncated preview plus the full pane; shorter blocks are
not collapsible. -/
def makeCollapsible (b : HighlightedBlock) : Option CollapsibleBlock :=
  if codeCollapseThreshold < b.code.length then
    some ⟨truncate_highlighted_preview b previewLineCount, b⟩
  else none

/-- **C9**: for a code block long enough to be collapsible, the collapsed
preview contains exactly the first `previewLineCount` physical lines with
the code pane and the line-number gutter truncated together at the same
line, the expanded pane carries the full content, and the two views agree
line-for-line up to the truncation point. -/
theorem C9_preview_truncation (b : HighlightedBlock) (cb : CollapsibleBlock)
    (hlen : b.gutter.length = b.code.length)
    (hcb : makeCollapsible b = some cb) :
    cb.preview.code = b.code.take previewLineCount
    ∧ cb.preview.gutter = b.gutter.take previewLineCount
    ∧ cb.preview.code.length = previewLineCount
    ∧ cb.preview.gutter.length = previewLineCount
    ∧ cb.full = b
    ∧ (∀ i : Nat, i < previewLineCount →
        cb.preview.code[i]? = b.code[i]? ∧ cb.preview.gutter[i]? = b.gutter[i]?) := by
  have hlong : codeCollapseThreshold < b.code.length := by
    by_contra hc
    simp [makeCollapsible, hc] at hcb
  have hcbv : cb = ⟨truncate_highlighted_preview b previewLineCount, b⟩ := by
    simp [makeCollapsible, hlong] at hcb
    exact hcb.symm
  subst hcbv
  simp only [codeCollapseThreshold] at hlong
  refine ⟨rfl, rfl, ?_, ?_, rfl, ?_⟩
  · simp [truncate_highlighted_preview, previewLineCount]
    omega
  · simp [truncate_highlighted_preview, previewLineCount, hlen]
    omega
  · intro i hi
    constructor
    · simp [truncate_highlighted_preview, List.getElem?_take, hi]
    · simp [truncate_highlighted_preview, List.getElem?_take, hi]

/-- A 13-line highlighted block for the C9 witness. -/
def c9Demo : HighlightedBlock :=
  { gutter := ["1", "2", "3", "4", "5", "6", "7", "8", "9", "10", "11",
               "12", "13"]
    code := ["line 1", "line 2", "line 3", "line 4", "line 5", "line 6",
             "line 7", "line 8", "line 9", "line 10", "line 11", "line 12",
             "line 13"] }

/-- The collapsible rendering of `c9Demo`. -/
def c9DemoCollapsed : CollapsibleBlock :=
  { preview := truncate_highlighted_preview c9Demo previewLineCount
    full := c9Demo }

/-- Witness for C9 at the 13-line block. -/
theorem C9_preview_truncation_witness :
    c9DemoCollapsed.preview.code = c9Demo.code.take previewLineCount
    ∧ c9DemoCollapsed.preview.code.length = previewLineCount
    ∧ c9DemoCollapsed.preview.gutter.length = previewLineCount
    ∧ c9DemoCollapsed.full = c9Demo := by
  have h := C9_preview_truncation c9Demo c9DemoCollapsed rfl rfl
  exact ⟨h.1, h.2.2.1, h.2.2.2.1, h.2.2.2.2.1⟩

/-! ## Cache Manager and Orchestrator (spec §3, §4.4, §4.6, §8)

Modelled from the spec: the cache and converter modules are not under
`src/`; the model follows spec §4.4 (cache states and rebuild policy), §3
(`ProjectCache`, `RenderedArtifact`) and §4.6 (one conversion invocation).
All operations are total functions — loading a corrupt or version-mismatched
manifest yields "no trusted cache" rather than a read error. -/

/-- Derived per-session statistics (spec §3 `Session` essentials; the
`SessionCacheData` of the cache module, also consumed by
`team_analytics.py`). -/
structure SessionCacheData where
  message_count : Nat := 0
  total_input_tokens : Nat := 0
  total_output_tokens : Nat := 0
  total_cache_creation_tokens : Nat := 0
  total_cache_read_tokens : Nat := 0
  first_timestamp : Option String := none
  last_timestamp : Option String := none
deriving DecidableEq, Repr

/-- On-disk metadata of a source file tracked by the cache (spec §4.4). -/
structure FileMeta where
  mtime : Nat
  size : Nat
deriving DecidableEq, Repr

/-- A transcript source file of a project directory. -/
structure SourceFile where
  name : String
  mtime : Nat
  size : Nat
deriving DecidableEq, Repr

/-- The metadata the cache records for a source file. -/
def fileMeta (f : SourceFile) : FileMeta := ⟨f.mtime, f.size⟩

/-- Per-file cache record: the source file's metadata at parse time plus
the sessions derived from that file (the per-source-file cache files of the
cache layout, spec §6). -/
structure FileRecord where
  meta : FileMeta
  sessions : List (String × SessionCacheData)
deriving DecidableEq, Repr

/-- The persisted project cache manifest (spec §3 `ProjectCache`):
schema/version stamp plus per-source-file records. -/
structure ProjectCache where
  schema_version : String
  per_file : List (String × FileRecord)
deriving DecidableEq, Repr

/-- Modelled from the spec: load the persisted manifest — `none` for a
manifest that failed to deserialize (corruption), and a deserialized
manifest whose `schema_version` differs from the engine version is
discarded wholesale; loading never raises. -/
def loadCache (version : String) :
    Option ProjectCache → Option ProjectCache
  | none => none
  | some c => if c.schema_version = version then some c else none

/-- Is the source file unchanged according to the cache (same mtime/size
recorded under its name)? -/
def fileUnchanged (c : ProjectCache) (f : SourceFile) : Bool :=
  (c.per_file.lookup f.name).map FileRecord.meta == some (fileMeta f)

/-- Modelled from the spec: the source files a conversion treats as changed
— all of them when there is no trusted cache (spec §4.4 full rebuild). -/
def changedFiles (cache : Option ProjectCache) (files : List SourceFile) :
    List SourceFile :=
  match cache with
  | none => files
  | some c => files.filter fun f => !fileUnchanged c f

/-- Modelled from the spec: the per-file record a rebuild produces for one
source file — the retained prior record when the file is unchanged,
otherwise a freshly parsed one (`parse` abstracts the per-file Parser →
Merger → Collapser pipeline). -/
def recordFor (cache : Option ProjectCache)
    (parse : SourceFile → List (String × SessionCacheData))
    (f : SourceFile) : FileRecord :=
  match cache with
  | some c =>
    match c.per_file.lookup f.name with
    | some r => if r.meta = fileMeta f then r else ⟨fileMeta f, parse f⟩
    | none => ⟨fileMeta f, parse f⟩
  | none => ⟨fileMeta f, parse f⟩

/-- Modelled from the spec: rebuild of the project cache — only
changed/added files are re-parsed, records of unchanged files are retained,
records of deleted files are dropped, and the manifest carries the
engine's current version (spec §4.4). -/
def convertCache (version : String)
    (parse : SourceFile → List (String × SessionCacheData))
    (persisted : Option ProjectCache) (files : List SourceFile) :
    ProjectCache :=
  { schema_version := version
    per_file := files.map fun f =>
      (f.name, recordFor (loadCache version persisted) parse f) }

/-- A rendered artifact: embedded version stamp, document body, file
modification time (spec §3 `RenderedArtifact`). -/
structure Artifact where
  stamp : String
  body : String
  mtime : Nat
deriving DecidableEq, Repr

/-- On-disk state of one project: source files, persisted manifest with its
modification time (`none` also stands for a corrupt manifest), and the
combined HTML artifact. -/
structure ProjectState where
  files : List SourceFile
  cache : Option (ProjectCache × Nat)
  artifact : Option Artifact
deriving DecidableEq, Repr

/-- Modelled from the spec: cache freshness — schema version matches, every
present source file is unchanged, and no recorded file was deleted
(spec §4.4 `Fresh`). -/
def cacheOk (version : String) (c : ProjectCache)
    (files : List SourceFile) : Bool :=
  c.schema_version == version
  && files.all (fileUnchanged c)
  && c.per_file.all fun p => files.any fun f => f.name == p.1

/-- Modelled from the spec: artifact freshness — stale if the embedded
version stamp differs from the engine version OR the manifest is newer than
the artifact's file mtime (spec §4.4). -/
def artifactOk (version : String) (a : Artifact) (cacheMtime : Nat) :
    Bool :=
  a.stamp == version && !(a.mtime < cacheMtime)

/-- Modelled from the spec (§4.6): one conversion of a project at time
`now` — check cache freshness, skip or rebuild the cache (writing the
manifest updates its mtime to `now`), then skip or regenerate the combined
document (`render` abstracts the deterministic Renderer over the parsed,
merged, deduplicated sequence; regenerating stamps the engine version and
sets the artifact mtime to `now`). -/
def convertRun (version : String)
    (parse : SourceFile → List (String × SessionCacheData))
    (render : List SourceFile → String)
    (now : Nat) (st : ProjectState) : ProjectState :=
  let newCache :=
    match st.cache with
    | some (c, m) =>
      if cacheOk version c st.files then (c, m)
      else (convertCache version parse (some c) st.files, now)
    | none => (convertCache version parse none st.files, now)
  let newArtifact :=
    match st.artifact with
    | some a =>
      if artifactOk version a newCache.2 then a
      else ⟨version, render st.files, now⟩
    | none => ⟨version, render st.files, now⟩
  { st with cache := some newCache, artifact := some newArtifact }

theorem recordFor_meta (cache : Option ProjectCache)
    (parse : SourceFile → List (String × SessionCacheData))
    (f : SourceFile) : (recordFor cache parse f).meta = fileMeta f := by
  cases cache with
  | none => rfl
  | some c =>
    unfold recordFor
    cases hl : c.per_file.lookup f.name with
    | none => simp [hl]
    | some r =>
      by_cases h : r.meta = fileMeta f
      · simp [hl, h]
      · simp [hl, h]

theorem lookup_name_map {β : Type} (g : SourceFile → β)
    (files : List SourceFile) (f : SourceFile)
    (hn : (files.map SourceFile.name).Nodup) (hf : f ∈ files) :
    (files.map fun x => (x.name, g x)).lookup f.name = some (g f) := by
  induction files with
  | nil => cases hf
  | cons x rest ih =>
    rcases List.mem_cons.mp hf with rfl | hmem
    · simp [List.lookup]
    · have hx : x.name ∉ rest.map SourceFile.name :=
        (List.nodup_cons.mp hn).1
      have hne : (f.name == x.name) = false := by
        simp only [beq_eq_false_iff_ne, ne_eq]
        intro hEq
        exact hx (hEq ▸ List.mem_map_of_mem SourceFile.name hmem)
      simp [List.lookup, hne]
      exact ih (List.nodup_cons.mp hn).2 hmem

theorem cacheOk_convertCache (version : String)
    (parse : SourceFile → List (String × SessionCacheData))
    (persisted : Option ProjectCache) (files : List SourceFile)
    (hn : (files.map SourceFile.name).Nodup) :
    cacheOk version (convertCache version parse persisted files) files
      = true := by
  unfold cacheOk convertCache
  simp only [Bool.and_eq_true, beq_self_eq_true, List.all_eq_true, true_and]
  constructor
  · intro f hf
    unfold fileUnchanged
    rw [lookup_name_map (recordFor (loadCache version persisted) parse)
      files f hn hf]
    simp [recordFor_meta]
  · intro p hp
    rcases List.mem_map.mp hp with ⟨x, hx, rfl⟩
    simp only [List.any_eq_true]
    exact ⟨x, hx, by simp⟩

theorem loadCache_version_ne (version : String) (c : ProjectCache)
    (h : c.schema_version ≠ version) :
    loadCache version (some c) = none := by
  simp [loadCache, h]

theorem convertCache_eq_rebuild (version : String)
    (parse : SourceFile → List (String × SessionCacheData))
    (persisted : Option ProjectCache) (files : List SourceFile)
    (h : loadCache version persisted = none) :
    convertCache version parse persisted files
      = convertCache version parse none files := by
  unfold convertCache
  rw [h]
  rfl

/-- **C3**: a persisted cache whose manifest fails to deserialize (corrupt)
or whose `schema_version` differs from the engine version is discarded and
rebuilt from source files on the next conversion: loading yields no trusted
cache (not a read error — loading is total), every source file is treated
as changed, the rebuilt cache equals the from-scratch rebuild (no part of
the old cache is reused, whatever it contained), and the rebuilt manifest
carries the engine's current version. -/
theorem C3_corrupt_or_mismatched_cache_full_rebuild (version : String)
    (parse : SourceFile → List (String × SessionCacheData))
    (persisted : Option ProjectCache) (files : List SourceFile)
    (hbad : persisted = none
      ∨ ∃ c, persisted = some c ∧ c.schema_version ≠ version) :
    loadCache version persisted = none
    ∧ changedFiles (loadCache version persisted) files = files
    ∧ convertCache version parse persisted files
        = convertCache version parse none files
    ∧ (convertCache version parse persisted files).schema_version = version
    ∧ (convertCache version parse persisted files).per_file
        = files.map fun f =>
            (f.name, (⟨fileMeta f, parse f⟩ : FileRecord)) := by
  have hload : loadCache version persisted = none := by
    rcases hbad with rfl | ⟨c, rfl, hv⟩
    · rfl
    · exact loadCache_version_ne version c hv
  refine ⟨hload, by rw [hload]; rfl, convertCache_eq_rebuild version parse
    persisted files hload, rfl, ?_⟩
  unfold convertCache
  rw [hload]
  rfl

/-- A persisted manifest with a stale schema version, for the C3/C5
witnesses (after `test_cache_version_mismatch_triggers_rebuild`). -/
def staleManifest : ProjectCache :=
  { schema_version := "0.0.0-fake"
    per_file := [("session-a.jsonl",
      ⟨⟨5, 100⟩, [("session-a", { message_count := 2 })]⟩)] }

/-- The source files of the witness project. -/
def demoFiles : List SourceFile := [⟨"session-a.jsonl", 5, 100⟩]

/-- A concrete per-file parse for the witnesses. -/
def demoParse (f : SourceFile) : List (String × SessionCacheData) :=
  [(f.name, { message_count := 2, total_input_tokens := 10 })]

/-- Witness for C3: a version-mismatched manifest triggers a full rebuild
carrying the current engine version. -/
theorem C3_corrupt_or_mismatched_cache_full_rebuild_witness :
    changedFiles (loadCache "0.8.0" (some staleManifest)) demoFiles
      = demoFiles
    ∧ convertCache "0.8.0" demoParse (some staleManifest) demoFiles
        = convertCache "0.8.0" demoParse none demoFiles
    ∧ (convertCache "0.8.0" demoParse (some staleManifest)
        demoFiles).schema_version = "0.8.0" := by
  have h := C3_corrupt_or_mismatched_cache_full_rebuild "0.8.0" demoParse
    (some staleManifest) demoFiles
    (Or.inr ⟨staleManifest, rfl, by decide⟩)
  exact ⟨h.2.1, h.2.2.1, h.2.2.2.1⟩

theorem convertRun_fresh (version : String)
    (parse : SourceFile → List (String × SessionCacheData))
    (render : List SourceFile → String) (now : Nat)
    (files : List SourceFile) (cacheF : Option (ProjectCache × Nat))
    (artF : Option Artifact)
    (hn : (files.map SourceFile.name).Nodup)
    (hm : ∀ c m, cacheF = some (c, m) → m ≤ now) :
    ∃ c1 m1 a1,
      convertRun version parse render now ⟨files, cacheF, artF⟩
        = ⟨files, some (c1, m1), some a1⟩
      ∧ cacheOk version c1 files = true
      ∧ m1 ≤ now
      ∧ artifactOk version a1 m1 = true := by
  cases cacheF with
  | none =>
    have hok := cacheOk_convertCache version parse none files hn
    cases artF with
    | none =>
      refine ⟨convertCache version parse none files, now,
        ⟨version, render files, now⟩, rfl, hok, le_refl now, ?_⟩
      simp [artifactOk]
    | some a =>
      by_cases hart : artifactOk version a now = true
      · refine ⟨convertCache version parse none files, now, a, ?_, hok,
          le_refl now, hart⟩
        simp [convertRun, hart]
      · refine ⟨convertCache version parse none files, now,
          ⟨version, render files, now⟩, ?_, hok, le_refl now, ?_⟩
        · simp [convertRun, hart]
        · simp [artifactOk]
  | some cm =>
    obtain ⟨c, m⟩ := cm
    by_cases hok : cacheOk version c files = true
    · have hmle : m ≤ now := hm c m rfl
      cases artF with
      | none =>
        refine ⟨c, m, ⟨version, render files, now⟩, ?_, hok, hmle, ?_⟩
        · simp [convertRun, hok]
        · simp [artifactOk]
          omega
      | some a =>
        by_cases hart : artifactOk version a m = true
        · exact ⟨c, m, a, by simp [convertRun, hok, hart], hok, hmle, hart⟩
        · refine ⟨c, m, ⟨version, render files, now⟩, ?_, hok, hmle, ?_⟩
          · simp [convertRun, hok, hart]
          · simp [artifactOk]
            omega
    · have hok2 := cacheOk_convertCache version parse (some c) files hn
      cases artF with
      | none =>
        refine ⟨convertCache version parse (some c) files, now,
          ⟨version, render files, now⟩, ?_, hok2, le_refl now, ?_⟩
        · simp [convertRun, hok]
        · simp [artifactOk]
      | some a =>
        by_cases hart : artifactOk version a now = true
        · refine ⟨convertCache version parse (some c) files, now, a, ?_,
            hok2, le_refl now, hart⟩
          simp [convertRun, hok, hart]
        · refine ⟨convertCache version parse (some c) files, now,
            ⟨version, render files, now⟩, ?_, hok2, le_refl now, ?_⟩
          · simp [convertRun, hok, hart]
          · simp [artifactOk]

/-- **C4**: converting an unchanged project a second time is idempotent —
assuming distinct source-file names and a clock not behind the persisted
manifest, the second run leaves the whole on-disk state exactly as the
first run left it: the combined HTML artifact is byte-identical (it is not
rewritten) and the cache manifest, including its modification time, is
unchanged. -/
theorem C4_idempotent_conversion (version : String)
    (parse : SourceFile → List (String × SessionCacheData))
    (render : List SourceFile → String) (now1 now2 : Nat)
    (st0 : ProjectState)
    (hn : (st0.files.map SourceFile.name).Nodup)
    (hm : ∀ c m, st0.cache = some (c, m) → m ≤ now1) :
    convertRun version parse render now2
        (convertRun version parse render now1 st0)
      = convertRun version parse render now1 st0
    ∧ (convertRun version parse render now2
        (convertRun version parse render now1 st0)).artifact
      = (convertRun version parse render now1 st0).artifact
    ∧ (convertRun version parse render now2
        (convertRun version parse render now1 st0)).cache
      = (convertRun version parse render now1 st0).cache := by
  obtain ⟨files, cacheF, artF⟩ := st0
  obtain ⟨c1, m1, a1, heq, hok, _, hart⟩ :=
    convertRun_fresh version parse render now1 files cacheF artF hn
      (by simpa using hm)
  have hstable : convertRun version parse render now2
      ⟨files, some (c1, m1), some a1⟩ = ⟨files, some (c1, m1), some a1⟩ := by
    simp [convertRun, hok, hart]
  rw [heq, hstable]
  exact ⟨rfl, rfl, rfl⟩

/-- The on-disk project state for the C4 witness: one source file, no
cache, no artifact yet. -/
def demoState : ProjectState :=
  { files := demoFiles, cache := none, artifact := none }

/-- A concrete renderer for the witnesses. -/
def demoRender (files : List SourceFile) : String :=
  String.intercalate "\n" (files.map SourceFile.name)

/-- Witness for C4: the second conversion of the unchanged demo project is
a no-op. -/
theorem C4_idempotent_conversion_witness :
    convertRun "0.8.0" demoParse demoRender 20
        (convertRun "0.8.0" demoParse demoRender 10 demoState)
      = convertRun "0.8.0" demoParse demoRender 10 demoState := by
  have h := C4_idempotent_conversion "0.8.0" demoParse demoRender 10 20
    demoState (by decide) (fun c m hcm => Option.noConfusion hcm)
  exact h.1

/-- **C5**: an existing rendered artifact or cache manifest whose embedded
version stamp was changed to a version different from the engine's current
version is regenerated by the next conversion with the current version
stamp, even when all source files are unchanged — artifact freshness
depends on the version stamp, not only on file mtimes. -/
theorem C5_version_stamp_forces_regeneration (version : String)
    (parse : SourceFile → List (String × SessionCacheData))
    (render : List SourceFile → String) (now : Nat)
    (st : ProjectState) (a : Artifact) (c : ProjectCache) (m : Nat) :
    (st.artifact = some a → a.stamp ≠ version →
      (convertRun version parse render now st).artifact
        = some ⟨version, render st.files, now⟩)
    ∧ (st.cache = some (c, m) → c.schema_version ≠ version →
      (convertRun version parse render now st).cache
        = some (convertCache version parse (some c) st.files, now)
      ∧ (convertCache version parse (some c) st.files).schema_version
          = version
      ∧ convertCache version parse (some c) st.files
          = convertCache version parse none st.files) := by
  obtain ⟨files, cacheF, artF⟩ := st
  constructor
  · intro hart hstamp
    simp only at hart
    subst hart
    have hbad : ∀ x : Nat, artifactOk version a x = false := fun x => by
      simp [artifactOk, hstamp]
    simp [convertRun, hbad]
  · intro hcache hv
    simp only at hcache
    subst hcache
    have hok : cacheOk version c files = false := by
      simp [cacheOk, hv]
    refine ⟨by simp [convertRun, hok], rfl,
      convertCache_eq_rebuild version parse (some c) files
        (loadCache_version_ne version c hv)⟩

/-- An artifact stamped by an outdated engine version, for the C5 witness
(after `test_regenerates_html_when_version_outdated`). -/
def staleArtifact : Artifact :=
  { stamp := "0.0.0-old", body := "<html>old</html>", mtime := 5 }

/-- The witness project state with a version-stale artifact and a
version-stale cache manifest. -/
def staleState : ProjectState :=
  { files := demoFiles
    cache := some (staleManifest, 5)
    artifact := some staleArtifact }

/-- Witness for C5: the stale demo artifact and manifest are both
regenerated with the current engine version. -/
theorem C5_version_stamp_forces_regeneration_witness :
    (convertRun "0.8.0" demoParse demoRender 10 staleState).artifact
      = some ⟨"0.8.0", demoRender staleState.files, 10⟩
    ∧ (convertRun "0.8.0" demoParse demoRender 10 staleState).cache
      = some (convertCache "0.8.0" demoParse (some staleManifest)
          staleState.files, 10)
    ∧ (convertCache "0.8.0" demoParse (some staleManifest)
        staleState.files).schema_version = "0.8.0" := by
  have h := C5_version_stamp_forces_regeneration "0.8.0" demoParse
    demoRender 10 staleState staleArtifact staleManifest 5
  refine ⟨h.1 rfl (by decide), ?_, ?_⟩
  · exact (h.2 rfl (by decide)).1
  · exact (h.2 rfl (by decide)).2.1

/-! ## Team analytics (`src/claude_code_log/team_analytics.py`)

Translated from the source.  The filesystem (shared Google-Drive directory,
per-project caches, per-`.jsonl`-file scan results) is abstracted as pure
data; Python float averages are modelled as exact rationals. -/

/-- `MemberStats` of `team_analytics.py`. -/
structure MemberStats where
  member_id : String
  member_name : String
  total_sessions : Nat := 0
  total_messages : Nat := 0
  total_input_tokens : Nat := 0
  total_output_tokens : Nat := 0
  total_cache_creation_tokens : Nat := 0
  total_cache_read_tokens : Nat := 0
  project_count : Nat := 0
  projects : List String := []
  first_activity : Option String := none
  last_activity : Option String := none
  active_days : Nat := 0
  avg_sessions_per_day : ℚ := 0
  avg_messages_per_session : ℚ := 0
  avg_tokens_per_session : ℚ := 0
deriving DecidableEq, Repr

/-- `DailyActivity` of `team_analytics.py` (never filled by
`analyze_team`). -/
structure DailyActivity where
  date : String
  member_id : String
  sessions : Nat := 0
  messages : Nat := 0
  input_tokens : Nat := 0
  output_tokens : Nat := 0
deriving DecidableEq, Repr

/-- `TeamAnalytics` of `team_analytics.py`. -/
structure TeamAnalytics where
  generated_at : String
  data_source : String
  total_members : Nat := 0
  total_projects : Nat := 0
  total_sessions : Nat := 0
  total_messages : Nat := 0
  total_input_tokens : Nat := 0
  total_output_tokens : Nat := 0
  earliest_activity : Option String := none
  latest_activity : Option String := none
  members : List (String × MemberStats) := []
  daily_activities : List DailyActivity := []
  productivity_ranking : List (String × Nat) := []
  token_usage_ranking : List (String × Nat) := []
deriving DecidableEq, Repr

/-- The result of `_analyze_jsonl_file` for one `.jsonl` file (its JSON
line scan abstracted at the filesystem boundary). -/
structure JsonlFileStats where
  sessions : Nat := 0
  messages : Nat := 0
  input_tokens : Nat := 0
  output_tokens : Nat := 0
  timestamps : List String := []
deriving DecidableEq, Repr

/-- One project directory of a member: the cached sessions returned by
`CacheManager.get_cached_project_data` (`none` when no cache exists), and
the per-file statistics used by the no-cache JSONL fallback. -/
structure ProjectDir where
  name : String
  cache : Option (List (String × SessionCacheData)) := none
  jsonl_stats : List JsonlFileStats := []
deriving DecidableEq, Repr

/-- One member directory of the shared data directory. -/
structure MemberDir where
  name : String
  projects : List ProjectDir := []
deriving DecidableEq, Repr

/-- The shared data directory (Google-Drive synced folder). -/
structure SharedDir where
  path : String
  members : List MemberDir := []
deriving DecidableEq, Repr

/-- `TeamAnalyticsManager.is_authorized` (team_analytics.py:106-108):
`self.role in ["admin", "super_admin"]`. -/
def is_authorized (role : String) : Bool :=
  (["admin", "super_admin"] : List String).contains role

/-- Date key of an ISO-8601 timestamp, as produced by
`datetime.fromisoformat(ts).strftime("%Y-%m-%d")`: its first ten
characters. -/
def dateOf (ts : String) : String := ts.take 10

/-- Sort a list of timestamp strings ascending (Python `sorted`). -/
def sortedStrings (l : List String) : List String :=
  l.mergeSort fun a b => decide (a ≤ b)

/-- The truthiness test `if project_cache and project_cache.sessions:` of
`analyze_member`. -/
def projectCacheSessions (p : ProjectDir) :
    Option (List (String × SessionCacheData)) :=
  match p.cache with
  | some ss => if ss.isEmpty then none else some ss
  | none => none

/-- Accumulated contribution of one project directory inside
`analyze_member` (team_analytics.py:174-223). -/
structure ProjAgg where
  counted : Bool := false
  sessions : Nat := 0
  messages : Nat := 0
  input_tokens : Nat := 0
  output_tokens : Nat := 0
  cache_creation_tokens : Nat := 0
  cache_read_tokens : Nat := 0
  timestamps : List String := []
  dates : List String := []
deriving DecidableEq, Repr

/-- Per-project aggregation of `analyze_member`: aggregate from cached
sessions with `message_count > 0` when a non-empty cache exists, otherwise
fall back to the per-`.jsonl`-file statistics; a project counts toward
`project_count` exactly when one of the two branches fires. -/
def aggProject (p : ProjectDir) : ProjAgg :=
  match projectCacheSessions p with
  | some ss =>
    let cs := (ss.map Prod.snd).filter fun s => 0 < s.message_count
    { counted := true
      sessions := cs.length
      messages := (cs.map SessionCacheData.message_count).sum
      input_tokens := (cs.map SessionCacheData.total_input_tokens).sum
      output_tokens := (cs.map SessionCacheData.total_output_tokens).sum
      cache_creation_tokens :=
        (cs.map SessionCacheData.total_cache_creation_tokens).sum
      cache_read_tokens :=
        (cs.map SessionCacheData.total_cache_read_tokens).sum
      timestamps := cs.flatMap fun s =>
        s.first_timestamp.toList ++ s.last_timestamp.toList
      dates := cs.flatMap fun s => (s.first_timestamp.map dateOf).toList }
  | none =>
    if p.jsonl_stats.isEmpty then {}
    else
      { counted := true
        sessions := (p.jsonl_stats.map JsonlFileStats.sessions).sum
        messages := (p.jsonl_stats.map JsonlFileStats.messages).sum
        input_tokens := (p.jsonl_stats.map JsonlFileStats.input_tokens).sum
        output_tokens :=
          (p.jsonl_stats.map JsonlFileStats.output_tokens).sum
        timestamps := p.jsonl_stats.flatMap JsonlFileStats.timestamps
        dates :=
          (p.jsonl_stats.flatMap JsonlFileStats.timestamps).map dateOf }

/-- `TeamAnalyticsManager.analyze_member` (team_analytics.py:145-241):
`none` when the member directory does not exist, otherwise the aggregated
statistics over its project directories. -/
def analyze_member (d : SharedDir) (member_id : String) :
    Option MemberStats :=
  match d.members.find? fun m => m.name == member_id with
  | none => none
  | some m =>
    let aggs := m.projects.map aggProject
    let used := m.projects.filter fun p => (aggProject p).counted
    let all_ts := aggs.flatMap ProjAgg.timestamps
    let dates := (aggs.flatMap ProjAgg.dates).dedup
    let sessions := (aggs.map ProjAgg.sessions).sum
    let messages := (aggs.map ProjAgg.messages).sum
    let inTok := (aggs.map ProjAgg.input_tokens).sum
    let outTok := (aggs.map ProjAgg.output_tokens).sum
    let sorted_ts := sortedStrings all_ts
    some
      { member_id := member_id
        member_name := member_id
        total_sessions := sessions
        total_messages := messages
        total_input_tokens := inTok
        total_output_tokens := outTok
        total_cache_creation_tokens :=
          (aggs.map ProjAgg.cache_creation_tokens).sum
        total_cache_read_tokens := (aggs.map ProjAgg.cache_read_tokens).sum
        project_count := used.length
        projects := used.map ProjectDir.name
        first_activity := sorted_ts.head?
        last_activity := sorted_ts.getLast?
        active_days := dates.length
        avg_sessions_per_day :=
          if 0 < dates.length then (sessions : ℚ) / dates.length else 0
        avg_messages_per_session :=
          if 0 < sessions then (messages : ℚ) / sessions else 0
        avg_tokens_per_session :=
          if 0 < sessions then ((inTok : ℚ) + outTok) / sessions else 0 }

/-- `TeamAnalyticsManager.discover_members` (team_analytics.py:110-143):
sorted names of non-hidden member directories that contain project data. -/
def discover_members (d : SharedDir) : List String :=
  sortedStrings ((d.members.filter fun m =>
    !(m.name.startsWith ".") && !m.projects.isEmpty).map MemberDir.name)

/-- The message of the `PermissionError` raised by `analyze_team`. -/
def permissionErrorMessage : String :=
  "Unauthorized: Team analytics requires admin or super_admin role"

/-- `TeamAnalyticsManager.analyze_team` (team_analytics.py:299-362): raise
`PermissionError` unless the role is authorized; otherwise discover
members, analyze each, aggregate totals, derive the activity date range
and the two rankings.  `now` stands for `datetime.now().isoformat()`. -/
def analyze_team (role : String) (now : String) (d : SharedDir) :
    Except String TeamAnalytics :=
  if !is_authorized role then Except.error permissionErrorMessage
  else
    let stats := (discover_members d).filterMap fun mid =>
      (analyze_member d mid).map fun s => (mid, s)
    let all_ts := stats.flatMap fun ms =>
      ms.2.first_activity.toList ++ ms.2.last_activity.toList
    let sorted_ts := sortedStrings all_ts
    let productivity_sorted := stats.mergeSort fun a b =>
      decide (b.2.total_messages ≤ a.2.total_messages)
    let token_sorted := stats.mergeSort fun a b =>
      decide (b.2.total_input_tokens + b.2.total_output_tokens
        ≤ a.2.total_input_tokens + a.2.total_output_tokens)
    Except.ok
      { generated_at := now
        data_source := d.path
        total_members := stats.length
        total_projects := (stats.map fun ms => ms.2.project_count).sum
        total_sessions := (stats.map fun ms => ms.2.total_sessions).sum
        total_messages := (stats.map fun ms => ms.2.total_messages).sum
        total_input_tokens :=
          (stats.map fun ms => ms.2.total_input_tokens).sum
        total_output_tokens :=
          (stats.map fun ms => ms.2.total_output_tokens).sum
        earliest_activity := sorted_ts.head?
        latest_activity := sorted_ts.getLast?
        members := stats
        productivity_ranking :=
          productivity_sorted.enum.map fun ir => (ir.2.1, ir.1 + 1)
        token_usage_ranking :=
          token_sorted.enum.map fun ir => (ir.2.1, ir.1 + 1) }

/-- **C10**: `analyze_team` raises `PermissionError` if and only if the
manager's role is neither `"admin"` nor `"super_admin"`; for an authorized
role it never raises `PermissionError`, and for an unauthorized role the
raise happens before any member data is read or any analytics state is
produced — the result is the same error whatever the shared directory
contains. -/
theorem C10_analyze_team_authorization (role now : String)
    (d1 d2 : SharedDir) :
    ((∃ a, analyze_team role now d1 = Except.ok a)
      ↔ (role = "admin" ∨ role = "super_admin"))
    ∧ (is_authorized role = false →
        analyze_team role now d1 = Except.error permissionErrorMessage
        ∧ analyze_team role now d1 = analyze_team role now d2) := by
  have hauth : is_authorized role = true
      ↔ (role = "admin" ∨ role = "super_admin") := by
    simp [is_authorized]
  constructor
  · constructor
    · rintro ⟨a, ha⟩
      by_cases h : is_authorized role = true
      · exact hauth.mp h
      · exfalso
        have hfalse : is_authorized role = false := by
          revert h
          cases is_authorized role <;> simp
        simp [analyze_team, hfalse] at ha
    · intro h
      have htrue := hauth.mpr h
      unfold analyze_team
      rw [htrue]
      exact ⟨_, rfl⟩
  · intro hfalse
    refine ⟨?_, ?_⟩ <;> simp [analyze_team, hfalse]

/-- A concrete shared directory with one member for the C10 witness. -/
def demoShared : SharedDir :=
  { path := "/shared/team-data"
    members :=
      [ { name := "alice"
          projects :=
            [ { name := "project1"
                cache := some [("session-1",
                  { message_count := 3
                    total_input_tokens := 100
                    total_output_tokens := 50
                    first_timestamp := some "2025-01-15T12:00:00Z"
                    last_timestamp := some "2025-01-15T13:00:00Z" })] } ] } ] }

/-- Witness for C10: an admin role gets a report over the demo directory,
an unauthorized role gets the permission error. -/
theorem C10_analyze_team_authorization_witness :
    (∃ a, analyze_team "admin" "2026-10-12T00:00:00" demoShared
      = Except.ok a)
    ∧ analyze_team "viewer" "2026-10-12T00:00:00" demoShared
      = Except.error permissionErrorMessage := by
  have h1 := C10_analyze_team_authorization "admin" "2026-10-12T00:00:00"
    demoShared demoShared
  have h2 := C10_analyze_team_authorization "viewer" "2026-10-12T00:00:00"
    demoShared demoShared
  exact ⟨h1.1.mpr (Or.inl rfl), (h2.2 (by decide)).1⟩

end ClaudeReporter
